import Mathlib

/-!
Verification of the copernicusWeather2psdmWeather ingestion pipeline.

Shallow embedding of the Python sources:
  * `src/weather/models.py`       — `Coordinate`, `WeatherValue`
  * `src/coordinates/coordinates.py` — `create_coordinates_df`, `insert_coordinate`
  * `src/weather/convert.py`      — `convert_netCFD`, `convert_grib`
  * `src/weather/processor.py`    — `detect_file_format`
  * `src/main.py`                 — `main`

Python floats are modelled by `RVal`: either NaN or a rational number.
All arithmetic the converters perform (subtraction, multiplication by 0.5,
division by the constant 3600) is exact on the values the claims mention,
so the rational model is faithful for them; NaN propagates through every
operation as in IEEE floats.  Database sessions are modelled by explicit
state (the list of persisted rows); batched writes are modelled by the
list of flushed batches.
-/

/-- Model of a Python float: NaN or a rational value. -/
inductive RVal where
  | nan : RVal
  | num (q : ℚ) : RVal
  deriving DecidableEq, Repr

namespace RVal

/-- Float subtraction; NaN propagates. -/
def sub : RVal → RVal → RVal
  | num a, num b => num (a - b)
  | _, _ => nan

/-- Float multiplication; NaN propagates. -/
def mul : RVal → RVal → RVal
  | num a, num b => num (a * b)
  | _, _ => nan

/-- Float division; NaN propagates.  Division by zero is mapped to NaN
(the converters only ever divide by the constant 3600, so the
infinite-quotient case of IEEE division is never exercised). -/
def div : RVal → RVal → RVal
  | num a, num b => if b = 0 then nan else num (a / b)
  | _, _ => nan

/-- `np.isnan` on one value. -/
def isnan : RVal → Bool
  | nan => true
  | num _ => false

end RVal

/-- A point geometry `(x, y)`; models the WKB `POINT` payload built by
`shapely.Point(x, y)` (`x` = longitude, `y` = latitude in the intended use). -/
structure Pt where
  x : ℚ
  y : ℚ
  deriving DecidableEq, Repr

/-- `src/weather/models.py`, class `Coordinate`: an integer id plus a point
geometry (stored as WKB; modelled by the point itself). -/
structure Coordinate where
  id : ℤ
  coordinate : Pt
  deriving DecidableEq, Repr

namespace Coordinate

/-- `Coordinate.from_xy(id, x, y)`: builds `Point(x, y)` and stores its WKB. -/
def from_xy (id : ℤ) (x y : ℚ) : Coordinate :=
  { id := id, coordinate := { x := x, y := y } }

/-- `Coordinate.__eq__`: `self.id == other.id` (for another `Coordinate`). -/
def eq (a b : Coordinate) : Bool :=
  a.id == b.id

/-- `Coordinate.__hash__`: `hash(self.id)`, with `h` the ambient integer
hash function of the Python runtime. -/
def hashWith (h : ℤ → ℤ) (c : Coordinate) : ℤ :=
  h c.id

end Coordinate

/-- `src/weather/models.py`, class `WeatherValue`, parametric in the
timestamp type `τ` (Python `datetime`, an opaque value here). -/
structure WeatherValue (τ : Type) where
  time : τ
  coordinate_id : ℤ
  aswdifd_s : RVal
  aswdir_s : RVal
  t2m : RVal
  u131m : RVal
  v131m : RVal
  deriving DecidableEq, Repr

/-- Python `enumerate` starting at `n`. -/
def enumerateFrom (n : ℕ) : List α → List (ℕ × α)
  | [] => []
  | x :: xs => (n, x) :: enumerateFrom (n + 1) xs

/-- Python `enumerate(xs)`. -/
def enumerate (xs : List α) : List (ℕ × α) :=
  enumerateFrom 0 xs

/-- `np.array(np.meshgrid(a, b)).T.reshape(-1, 2)` for 1-D `a`, `b`:
with `'xy'` indexing, `meshgrid(a, b)` has shape `(len b, len a)` with
`X[r][c] = a[c]`, `Y[r][c] = b[r]`; stacking to `(2, len b, len a)`,
transposing to `(len a, len b, 2)` and reshaping row-major yields the
list of pairs whose entry `i * len b + j` is `(a[i], b[j])`. -/
def meshgridTReshape (a : List α) (b : List β) : List (α × β) :=
  a.flatMap fun x => b.map fun y => (x, y)

/-- `src/coordinates/coordinates.py`, `create_coordinates_df`:
from the latitude and longitude axes it builds

  * `latlons     = np.array(np.meshgrid(lats, lons)).T.reshape(-1, 2)`
  * `latlons_idx = np.array(np.meshgrid(np.arange(len(lats)),
                                        np.arange(len(lons)))).T.reshape(-1, 2)`
  * a DataFrame column `coordinate = Coordinate.from_xy(idx, lon, lat).coordinate`
    for `idx, (lat, lon)` in `zip(latlons_idx, latlons)`
  * the persisted rows `Coordinate(id=i, coordinate=row)` for the
    enumerated DataFrame rows (the default index is `0, 1, …`)
  * the returned dict `{tuple(idx): i for i, idx in enumerate(latlons_idx)}`.

Returns (persisted coordinate rows, grid-index → id association list). -/
def create_coordinates_df (lats lons : List ℚ) :
    List Coordinate × List ((ℕ × ℕ) × ℕ) :=
  let latlons := meshgridTReshape lats lons
  let latlons_idx :=
    meshgridTReshape (List.range lats.length) (List.range lons.length)
  let coordColumn :=
    (latlons_idx.zip latlons).map fun p =>
      (Coordinate.from_xy (Int.ofNat p.1.1) p.2.2 p.2.1).coordinate
  let coordinates :=
    (enumerate coordColumn).map fun p => Coordinate.mk (Int.ofNat p.1) p.2
  let mapping := (enumerate latlons_idx).map fun p => (p.2, p.1)
  (coordinates, mapping)

/-- `func.max(Coordinate.id)` over the coordinate table: `none` when empty. -/
def maxCoordId (table : List Coordinate) : Option ℤ :=
  table.foldl (fun acc c =>
    match acc with
    | none => some c.id
    | some m => some (max m c.id)) none

/-- `src/coordinates/coordinates.py`, `insert_coordinate(session, lat, lon)`:
builds the query point `Point(lon, lat)`, queries existing coordinates for
geometric equality and returns the match's id; otherwise computes
`new_id = (max id or 0) + 1`, inserts `Coordinate.from_xy(id=new_id, x=lat,
y=lon)` (note the source passes latitude as `x` and longitude as `y`),
commits and returns `new_id`.  The session is the list of persisted rows;
the result is (table after the call, returned id).  The `IntegrityError`
recovery path needs a uniqueness constraint violated by a concurrent
writer; under the sequential semantics modelled here fresh `max+1` ids
never collide, so that branch does not fire. -/
def insert_coordinate (table : List Coordinate) (lat lon : ℚ) :
    List Coordinate × ℤ :=
  let geography_point : Pt := { x := lon, y := lat }
  match table.find? (fun c => c.coordinate == geography_point) with
  | some existing_coordinate => (table, existing_coordinate.id)
  | none =>
      let max_id := maxCoordId table
      let new_id := (max_id.getD 0) + 1
      let new_coordinate := Coordinate.from_xy new_id lat lon
      (table ++ [new_coordinate], new_id)

/-- Batch-writer state: the batches flushed so far (each flushed batch is
one `session.add_all` + `session.commit`) and the current buffer
(`weather_values`). -/
abbrev BState (W : Type) := List (List W) × List W

/-- One `weather_values.append(w)` followed by the
`if len(weather_values) >= batch_size: add_all; commit; clear` check of
the converter loops. -/
def pushRecord (batch_size : ℕ) (st : BState W) (w : W) : BState W :=
  let buf := st.2 ++ [w]
  if batch_size ≤ buf.length then (st.1 ++ [buf], []) else (st.1, buf)

/-- The trailing `if weather_values: add_all; commit` flush of any
remaining partial buffer. -/
def finishBatches (st : BState W) : List (List W) :=
  if st.2.isEmpty then st.1 else st.1 ++ [st.2]

/-- The per-cell loop body of the GRIB converter: run the cell extraction
`f` (which yields `none` when the cell is skipped) and push the record it
yields, if any, through the batch writer. -/
def pushCell (b : ℕ) (f : B → Option W) (st : BState W) (c : B) : BState W :=
  match f c with
  | none => st
  | some w => pushRecord b st w

/-- The record `convert_netCFD` builds for time entry `p = (time_idx,
time_value)` and coordinate entry `c = ((lat_idx, lon_idx),
coordinate_id)` from the five source arrays. -/
def mkNetcdfRecord (t2m u100 v100 fdir ssrd : ℕ → ℕ → ℕ → RVal)
    (p : ℕ × τ) (c : (ℕ × ℕ) × ℤ) : WeatherValue τ :=
  let temp := t2m p.1 c.1.1 c.1.2
  let u131m := u100 p.1 c.1.1 c.1.2
  let v131m := v100 p.1 c.1.1 c.1.2
  let fDir := fdir p.1 c.1.1 c.1.2
  let influx_total := ssrd p.1 c.1.1 c.1.2
  { time := p.2
    coordinate_id := c.2
    aswdifd_s := (influx_total.sub fDir).div (RVal.num 3600)
    aswdir_s := fDir.div (RVal.num 3600)
    t2m := temp
    u131m := u131m
    v131m := v131m }

/-- `src/weather/convert.py`, `convert_netCFD`: for each formatted time
(outer loop, in source order) and each entry of the coordinates dict
(inner loop, insertion order) it builds a `WeatherValue` from the five
arrays and pushes it through the batch writer, flushing every
`batch_size` records and once more at the end.  The timestamps are the
already-formatted/parsed time values `times`; the arrays are indexed
`[time_idx, lat_idx, lon_idx]`.  The result is the list of flushed
batches, in write order. -/
def convert_netCFD (times : List τ)
    (t2m u100 v100 fdir ssrd : ℕ → ℕ → ℕ → RVal)
    (coordinates : List ((ℕ × ℕ) × ℤ)) (batch_size : ℕ) :
    List (List (WeatherValue τ)) :=
  finishBatches
    ((enumerate times).foldl
      (fun st p =>
        coordinates.foldl
          (fun st c =>
            pushRecord batch_size st (mkNetcdfRecord t2m u100 v100 fdir ssrd p c))
          st)
      ([], []))

/-- `src/weather/convert.py`, the GRIB `variable_mapping` table:
canonical name → candidate source names in priority order. -/
def variable_mapping : List (String × List String) :=
  [("t2m", ["t2m", "2t", "T_2M", "TMP_2maboveground"]),
   ("u100m", ["u100", "u100m", "U_100M", "100u", "UGRD_100maboveground"]),
   ("v100m", ["v100", "v100m", "V_100M", "100v", "VGRD_100maboveground"]),
   ("ssrd", ["ssrd", "ssr", "DSWRF_surface", "surface_downwelling_shortwave_flux"]),
   ("fdir", ["fdir", "direct_normal_irradiance", "DNI", "direct_solar"])]

/-- `src/weather/convert.py`, `convert_grib`'s resolution loop: for each
canonical variable, scan its candidates in order and keep the first one
present in the dataset's variables (`actual_variables`). -/
def resolveVars (dsVars : List String) : List (String × String) :=
  variable_mapping.filterMap fun row =>
    (row.2.find? fun possible_name => dsVars.contains possible_name).map
      fun found => (row.1, found)

/-- `required_vars = ["t2m", "u100m", "v100m", "ssrd"]`. -/
def required_vars : List String := ["t2m", "u100m", "v100m", "ssrd"]

/-- The `ValueError` raised (and diagnostics logged) by `convert_grib`
when required variables are unresolved: the missing canonical names and
the variables actually present in the file. -/
structure GribError where
  missing : List String
  available : List String
  deriving DecidableEq, Repr

/-- A GRIB dataset as `convert_grib` reads it through xarray: the
variable names present, the time axis values, and for each variable name
the value at `[time_idx, lat_idx, lon_idx]` (already a float; NaN
representable). -/
structure GribDataset (τ : Type) where
  vars : List String
  times : List τ
  data : String → ℕ → ℕ → ℕ → RVal

/-- The direct-radiation value used at one cell: the resolved `fdir`
variable when available, else `ssrd_data * 0.5` (the documented 50 %
approximation, logged with a warning). -/
def gribFdirVal (ds : GribDataset τ) (sn : String) (fdirName : Option String)
    (ti la lo : ℕ) : RVal :=
  match fdirName with
  | some fn => ds.data fn ti la lo
  | none => (ds.data sn ti la lo).mul (RVal.num (1 / 2))

/-- Whether the NaN skip fires at a cell: `np.isnan([temp, u_wind,
v_wind, ssrd, fdir]).any()`. -/
def gribCellNan (ds : GribDataset τ) (tn un vn sn : String)
    (fdirName : Option String) (ti la lo : ℕ) : Bool :=
  (ds.data tn ti la lo).isnan || (ds.data un ti la lo).isnan ||
    (ds.data vn ti la lo).isnan || (ds.data sn ti la lo).isnan ||
    (gribFdirVal ds sn fdirName ti la lo).isnan

/-- The per-cell body of `convert_grib` for time entry `p` and coordinate
entry `c`, given the resolved source names `tn un vn sn` of the required
variables and `fdirName` the resolved direct-radiation name (if any):
extract the five values (falling back to `ssrd_data * 0.5` when `fdir`
is unresolved), return `none` when any is NaN (the skip `continue`),
otherwise the built record.  The source wraps extraction in a
try/except for `IndexError`/`ValueError`; with total array access those
exceptions cannot arise in this model. -/
def mkGribCell (ds : GribDataset τ) (tn un vn sn : String)
    (fdirName : Option String) (p : ℕ × τ) (c : (ℕ × ℕ) × ℤ) :
    Option (WeatherValue τ) :=
  let temp := ds.data tn p.1 c.1.1 c.1.2
  let u_wind := ds.data un p.1 c.1.1 c.1.2
  let v_wind := ds.data vn p.1 c.1.1 c.1.2
  let ssrd := ds.data sn p.1 c.1.1 c.1.2
  let fdir := gribFdirVal ds sn fdirName p.1 c.1.1 c.1.2
  if gribCellNan ds tn un vn sn fdirName p.1 c.1.1 c.1.2 then
    none
  else
    some
      { time := p.2
        coordinate_id := c.2
        aswdifd_s := (ssrd.sub fdir).div (RVal.num 3600)
        aswdir_s := fdir.div (RVal.num 3600)
        t2m := temp
        u131m := u_wind
        v131m := v_wind }

/-- `src/weather/convert.py`, `convert_grib`: resolve variables against
the dataset; if any required variable is unresolved, raise `ValueError`
naming the missing ones (with the available variables logged) before any
record is built; otherwise run the time × coordinate loop, skipping
NaN cells and batching writes exactly as the NetCDF path does.  When
`fdir` is unresolved the loop substitutes `ssrd_data * 0.5` with a
warning.  Result: the flushed batches, or the error. -/
def convert_grib (ds : GribDataset τ) (coordinates : List ((ℕ × ℕ) × ℤ))
    (batch_size : ℕ) : Except GribError (List (List (WeatherValue τ))) :=
  let actual_variables := resolveVars ds.vars
  let missing_vars :=
    required_vars.filter fun v => (actual_variables.lookup v).isNone
  if missing_vars.isEmpty then
    let tn := (actual_variables.lookup "t2m").getD ""
    let un := (actual_variables.lookup "u100m").getD ""
    let vn := (actual_variables.lookup "v100m").getD ""
    let sn := (actual_variables.lookup "ssrd").getD ""
    let fdirName := actual_variables.lookup "fdir"
    .ok (finishBatches
      ((enumerate ds.times).foldl
        (fun st p =>
          coordinates.foldl
            (pushCell batch_size (mkGribCell ds tn un vn sn fdirName p)) st)
        ([], [])))
  else
    .error { missing := missing_vars, available := ds.vars }

/-- The records `convert_grib` writes once resolution has succeeded:
every (time entry, coordinate entry) pair contributes its cell record
unless the NaN skip drops it. -/
def gribRecords (ds : GribDataset τ) (coordinates : List ((ℕ × ℕ) × ℤ)) :
    List (WeatherValue τ) :=
  (enumerate ds.times).flatMap fun p =>
    coordinates.filterMap
      (mkGribCell ds (((resolveVars ds.vars).lookup "t2m").getD "")
        (((resolveVars ds.vars).lookup "u100m").getD "")
        (((resolveVars ds.vars).lookup "v100m").getD "")
        (((resolveVars ds.vars).lookup "ssrd").getD "")
        ((resolveVars ds.vars).lookup "fdir") p)

/-- Python `str.lower()` applied characterwise (the extensions involved
are ASCII). -/
def lowerStr (s : String) : String := String.mk (s.data.map Char.toLower)

/-- `src/weather/processor.py`, `detect_file_format`: classify by the
lowercased extension; for an unrecognized extension fall back to content
probing — try opening as NetCDF, then as GRIB.  The input is the file's
suffix (`Path(file_path).suffix`) together with the outcomes the two
probes would have (`netcdfOpens` / `gribOpens` model whether
`Dataset(file_path)` / `pygrib.open(file_path)` succeed). -/
def detect_file_format (suffix : String) (netcdfOpens gribOpens : Bool) :
    String :=
  let file_ext := lowerStr suffix
  if [".nc", ".nc4", ".netcdf"].contains file_ext then "netcdf"
  else if [".grib", ".grb", ".grib2", ".grb2"].contains file_ext then "grib"
  else if netcdfOpens then "netcdf"
  else if gribOpens then "grib"
  else "unknown"

/-- The two subcommands of `src/main.py`. -/
inductive Command where
  | inspectGrib
  | processNetcdf
  deriving DecidableEq, Repr

/-- `src/main.py`, `main()`: control-flow skeleton.  `fileExists` is the
`grib_file_path.exists()` test of the inspect branch; `action` is the
outcome of the branch's work (`inspect_grib_file` resp. the
config-loading + `process_weather_data` body of the try block), `.ok` when
it completes and `.error` when it raises.  In the `process-netcdf`
branch the `return 1` statement sits after (outside) the
try/except, so both the successful path — which has already logged
"Processing completed successfully" — and the exception path fall
through to it; the trailing `return 0` of `main` is unreachable from
that branch.  (Named `main_exit_code` because Lean reserves `main`.) -/
def main_exit_code (cmd : Command) (fileExists : Bool)
    (action : Except String Unit) : ℤ :=
  match cmd with
  | .inspectGrib =>
      if !fileExists then 1
      else
        match action with
        | .ok _ => 0
        | .error _ => 1
  | .processNetcdf =>
      match action with
      | .ok _ => 1
      | .error _ => 1

/-! ### Helper lemmas about `enumerate` and the meshgrid expansion -/

theorem enumerateFrom_append (xs ys : List α) (n : ℕ) :
    enumerateFrom n (xs ++ ys)
      = enumerateFrom n xs ++ enumerateFrom (n + xs.length) ys := by
  induction xs generalizing n with
  | nil => simp [enumerateFrom]
  | cons x xs ih =>
      simp [enumerateFrom, ih (n + 1)]
      ring_nf

theorem enumerateFrom_length (xs : List α) (n : ℕ) :
    (enumerateFrom n xs).length = xs.length := by
  induction xs generalizing n with
  | nil => rfl
  | cons x xs ih => simp [enumerateFrom, ih]

theorem enumerateFrom_map_range (n M : ℕ) (f : ℕ → α) :
    enumerateFrom n ((List.range M).map f)
      = (List.range M).map fun j => (n + j, f j) := by
  induction M with
  | zero => rfl
  | succ M ih =>
      rw [List.range_succ]
      simp only [List.map_append, List.map_cons, List.map_nil]
      rw [enumerateFrom_append, ih]
      simp [enumerateFrom]

theorem meshgridTReshape_length (a : List α) (b : List β) :
    (meshgridTReshape a b).length = a.length * b.length := by
  induction a with
  | nil => simp [meshgridTReshape]
  | cons x a ih =>
      simp [meshgridTReshape] at ih ⊢
      simp [ih, Nat.succ_mul, Nat.add_comm]

theorem grid_enumerate (L M : ℕ) :
    enumerate (meshgridTReshape (List.range L) (List.range M))
      = (List.range L).flatMap fun i =>
          (List.range M).map fun j => (i * M + j, (i, j)) := by
  induction L with
  | zero => rfl
  | succ L ih =>
      rw [List.range_succ]
      unfold meshgridTReshape at ih ⊢
      rw [List.flatMap_append, List.flatMap_append]
      unfold enumerate at ih ⊢
      rw [enumerateFrom_append, ih]
      have hlen :
          (((List.range L).flatMap fun x =>
              (List.range M).map fun y => (x, y)).length) = L * M := by
        simpa [meshgridTReshape] using
          meshgridTReshape_length (List.range L) (List.range M)
      rw [hlen]
      simp [enumerateFrom_map_range]

theorem enumerateFrom_fst (xs : List α) (n : ℕ) :
    (enumerateFrom n xs).map Prod.fst = List.range' n xs.length := by
  induction xs generalizing n with
  | nil => rfl
  | cons x xs ih => simp [enumerateFrom, List.range'_succ, ih]

/-- C1: `create_coordinates_df` on a latitude axis of length `L` and a
longitude axis of length `M` produces exactly `L × M` coordinate rows,
whose identifiers are exactly `0, …, L*M − 1` in order, and the returned
grid-index → id mapping contains an entry `((i, j), v)` precisely when
`i < L`, `j < M` and `v = i * M + j` (row-major, latitude outer). -/
theorem create_coordinates_df_spec (lats lons : List ℚ) :
    (create_coordinates_df lats lons).1.length = lats.length * lons.length ∧
    (create_coordinates_df lats lons).1.map Coordinate.id
      = (List.range (lats.length * lons.length)).map Int.ofNat ∧
    ∀ i j v, ((i, j), v) ∈ (create_coordinates_df lats lons).2 ↔
      i < lats.length ∧ j < lons.length ∧ v = i * lons.length + j := by
  constructor
  · simp [create_coordinates_df, enumerateFrom_length, enumerate,
      meshgridTReshape_length]
  constructor
  · have hcol :
        (((meshgridTReshape (List.range lats.length) (List.range lons.length)).zip
            (meshgridTReshape lats lons)).map fun p =>
          (Coordinate.from_xy (Int.ofNat p.1.1) p.2.2 p.2.1).coordinate).length
        = lats.length * lons.length := by
      simp [List.length_zip, meshgridTReshape_length]
    simp only [create_coordinates_df]
    rw [List.map_map]
    have : (Coordinate.id ∘ fun p : ℕ × Pt => Coordinate.mk (Int.ofNat p.1) p.2)
        = fun p : ℕ × Pt => Int.ofNat p.1 := rfl
    rw [this]
    have hfst : ∀ (ys : List Pt),
        (enumerate ys).map (fun p : ℕ × Pt => Int.ofNat p.1)
          = (List.range ys.length).map Int.ofNat := by
      intro ys
      have h1 : (enumerate ys).map (fun p : ℕ × Pt => Int.ofNat p.1)
          = ((enumerate ys).map Prod.fst).map Int.ofNat := by
        rw [List.map_map]; rfl
      rw [h1, enumerate, enumerateFrom_fst, ← List.range_eq_range']
    rw [hfst, hcol]
  · intro i j v
    simp only [create_coordinates_df]
    rw [grid_enumerate, List.map_flatMap]
    simp only [List.map_map]
    constructor
    · intro h
      simp only [List.mem_flatMap, List.mem_map, List.mem_range,
        Function.comp] at h
      obtain ⟨i', hi', j', hj', heq⟩ := h
      obtain ⟨h1, h2⟩ := Prod.mk.injEq .. ▸ heq
      obtain ⟨hi0, hj0⟩ := Prod.mk.injEq .. ▸ h1
      subst hi0
      subst hj0
      exact ⟨hi', hj', h2.symm⟩
    · rintro ⟨hi, hj, hv⟩
      simp only [List.mem_flatMap, List.mem_map, List.mem_range,
        Function.comp]
      exact ⟨i, hi, j, hj, by simp [hv]⟩

/-! ### Batch-writer lemmas: flushing never loses or invents records -/

theorem pushRecord_flatten (b : ℕ) (st : BState W) (w : W) :
    ((pushRecord b st w).1).flatten ++ (pushRecord b st w).2
      = st.1.flatten ++ st.2 ++ [w] := by
  simp only [pushRecord]
  by_cases h : b ≤ st.2.length + 1 <;> simp [h]

theorem foldl_pushRecord_flatten (b : ℕ) (ws : List W) :
    ∀ st : BState W,
      ((ws.foldl (pushRecord b) st).1).flatten
          ++ (ws.foldl (pushRecord b) st).2
        = st.1.flatten ++ st.2 ++ ws := by
  induction ws with
  | nil => intro st; simp
  | cons w ws ih =>
      intro st
      simp only [List.foldl_cons]
      rw [ih (pushRecord b st w), pushRecord_flatten]
      simp

theorem finishBatches_flatten (st : BState W) :
    (finishBatches st).flatten = st.1.flatten ++ st.2 := by
  unfold finishBatches
  by_cases h : st.2.isEmpty
  · rw [List.isEmpty_iff] at h
    simp [h]
  · simp [h]

theorem foldl_pushCell (b : ℕ) (f : B → Option W) (l : List B) :
    ∀ st : BState W,
      l.foldl (pushCell b f) st = (l.filterMap f).foldl (pushRecord b) st := by
  induction l with
  | nil => intro st; rfl
  | cons c l ih =>
      intro st
      cases h : f c <;> simp [List.filterMap_cons, pushCell, h, ih]

theorem foldl_nested_push_flatten (b : ℕ) (outer : List A)
    (inner : List B) (f : A → B → W) :
    ∀ st : BState W,
      ((outer.foldl
            (fun st p => inner.foldl (fun st c => pushRecord b st (f p c)) st)
            st).1).flatten
          ++ (outer.foldl
                (fun st p =>
                  inner.foldl (fun st c => pushRecord b st (f p c)) st)
                st).2
        = st.1.flatten ++ st.2 ++ outer.flatMap fun p => inner.map (f p) := by
  induction outer with
  | nil => intro st; simp
  | cons p outer ih =>
      intro st
      simp only [List.foldl_cons, List.flatMap_cons]
      rw [ih]
      have hinner :
          inner.foldl (fun st c => pushRecord b st (f p c)) st
            = (inner.map (f p)).foldl (pushRecord b) st := by
        rw [List.foldl_map]
      rw [hinner, foldl_pushRecord_flatten]
      simp

theorem foldl_nested_pushCell_flatten (b : ℕ) (outer : List A)
    (inner : List B) (f : A → B → Option W) :
    ∀ st : BState W,
      ((outer.foldl (fun st p => inner.foldl (pushCell b (f p)) st) st).1).flatten
          ++ (outer.foldl (fun st p => inner.foldl (pushCell b (f p)) st) st).2
        = st.1.flatten ++ st.2 ++ outer.flatMap fun p => inner.filterMap (f p) := by
  induction outer with
  | nil => intro st; simp
  | cons p outer ih =>
      intro st
      simp only [List.foldl_cons, List.flatMap_cons]
      rw [ih, foldl_pushCell, foldl_pushRecord_flatten]
      simp

/-- The records `convert_netCFD` ultimately writes, in write order. -/
theorem convert_netCFD_flatten (times : List τ)
    (t2m u100 v100 fdir ssrd : ℕ → ℕ → ℕ → RVal)
    (coordinates : List ((ℕ × ℕ) × ℤ)) (b : ℕ) :
    (convert_netCFD times t2m u100 v100 fdir ssrd coordinates b).flatten
      = (enumerate times).flatMap fun p =>
          coordinates.map (mkNetcdfRecord t2m u100 v100 fdir ssrd p) := by
  unfold convert_netCFD
  rw [finishBatches_flatten, foldl_nested_push_flatten]
  simp

/-! ### GRIB conversion characterization -/

/-- When every required variable resolves, `convert_grib` succeeds and
writes exactly `gribRecords` (in order), for every batch size. -/
theorem convert_grib_map_flatten (ds : GribDataset τ)
    (coordinates : List ((ℕ × ℕ) × ℤ)) (b : ℕ)
    (h : (required_vars.filter fun v =>
        ((resolveVars ds.vars).lookup v).isNone).isEmpty = true) :
    (convert_grib ds coordinates b).map List.flatten
      = .ok (gribRecords ds coordinates) := by
  simp only [convert_grib]
  rw [if_pos h]
  simp only [Except.map]
  rw [finishBatches_flatten, foldl_nested_pushCell_flatten]
  simp [gribRecords]

/-- When some required variable does not resolve, `convert_grib` raises
the `ValueError` carrying the missing canonical names and the variables
present, for every batch size and before building any record. -/
theorem convert_grib_error (ds : GribDataset τ)
    (coordinates : List ((ℕ × ℕ) × ℤ)) (b : ℕ)
    (h : (required_vars.filter fun v =>
        ((resolveVars ds.vars).lookup v).isNone).isEmpty = false) :
    convert_grib ds coordinates b
      = .error
          { missing := required_vars.filter fun v =>
              ((resolveVars ds.vars).lookup v).isNone
            available := ds.vars } := by
  simp only [convert_grib]
  rw [if_neg (by simp [h])]

/-! ### Variable-resolution lemmas -/

theorem lookup_filterMap_not_mem (g : List String → Option String)
    (rows : List (String × List String)) (cn : String)
    (h : cn ∉ rows.map Prod.fst) :
    (rows.filterMap fun row => (g row.2).map fun f => (row.1, f)).lookup cn
      = none := by
  induction rows with
  | nil => rfl
  | cons row rows ih =>
      obtain ⟨k, qs⟩ := row
      simp only [List.map_cons, List.mem_cons, not_or] at h
      obtain ⟨hne, hrest⟩ := h
      have hbeq : (cn == k) = false := by simpa using hne
      cases hg : g qs with
      | none => simpa [List.filterMap_cons, hg] using ih hrest
      | some f => simp [List.filterMap_cons, hg, List.lookup, hbeq, ih hrest]

theorem lookup_filterMap_keyed (g : List String → Option String) :
    ∀ (rows : List (String × List String)), (rows.map Prod.fst).Nodup →
      ∀ cn ps, (cn, ps) ∈ rows →
        (rows.filterMap fun row => (g row.2).map fun f => (row.1, f)).lookup cn
          = g ps := by
  intro rows
  induction rows with
  | nil => intro _ cn ps h; simp at h
  | cons row rows ih =>
      intro hnd cn ps hmem
      obtain ⟨k, qs⟩ := row
      simp only [List.map_cons, List.nodup_cons] at hnd
      obtain ⟨hk, hnd'⟩ := hnd
      rcases List.mem_cons.mp hmem with heq | htail
      · simp only [Prod.mk.injEq] at heq
        obtain ⟨rfl, rfl⟩ := heq
        cases hg : g ps with
        | none =>
            simp [List.filterMap_cons, hg,
              lookup_filterMap_not_mem g rows cn hk]
        | some f => simp [List.filterMap_cons, hg, List.lookup]
      · have hcn : cn ∈ rows.map Prod.fst :=
          List.mem_map.mpr ⟨(cn, ps), htail, rfl⟩
        have hne : (cn == k) = false := by
          have h0 : cn ≠ k := fun he => hk (he ▸ hcn)
          simpa using h0
        cases hg : g qs with
        | none => simpa [List.filterMap_cons, hg] using ih hnd' cn ps htail
        | some f =>
            simp [List.filterMap_cons, hg, List.lookup, hne,
              ih hnd' cn ps htail]

/-- `resolveVars` looks each canonical variable up by scanning its
candidate list for the first name present in the dataset. -/
theorem lookup_resolveVars (dsVars : List String) (cn : String)
    (ps : List String) (h : (cn, ps) ∈ variable_mapping) :
    (resolveVars dsVars).lookup cn
      = ps.find? fun possible_name => dsVars.contains possible_name := by
  have hnd : (variable_mapping.map Prod.fst).Nodup := by decide
  exact lookup_filterMap_keyed
    (fun qs => qs.find? fun possible_name => dsVars.contains possible_name)
    variable_mapping hnd cn ps h

/-- `List.find?` returns the first element satisfying the predicate:
it is at some position `k`, satisfies the predicate, and every earlier
position fails it. -/
theorem find?_first_position (p : α → Bool) (l : List α) (a : α)
    (h : l.find? p = some a) :
    ∃ k, ∃ hk : k < l.length,
      l.get ⟨k, hk⟩ = a ∧ p a = true ∧
        ∀ m, ∀ hm : m < k, p (l.get ⟨m, hm.trans hk⟩) = false := by
  induction l with
  | nil => simp at h
  | cons x xs ih =>
      rw [List.find?_cons] at h
      cases hx : p x with
      | true =>
          rw [hx] at h
          obtain rfl : x = a := by simpa using h
          exact ⟨0, Nat.succ_pos _, rfl, hx,
            fun m hm => absurd hm (Nat.not_lt_zero m)⟩
      | false =>
          rw [hx] at h
          obtain ⟨k, hk, hget, hpa, hbefore⟩ := ih h
          refine ⟨k + 1, Nat.succ_lt_succ hk, by simpa using hget, hpa, ?_⟩
          intro m hm
          cases m with
          | zero => simpa using hx
          | succ m =>
              have hm' : m < k := Nat.lt_of_succ_lt_succ hm
              simpa using hbefore m hm'

/-! ### Cell-record lemmas -/

theorem mkGribCell_none (ds : GribDataset τ) (tn un vn sn : String)
    (fdirName : Option String) (p : ℕ × τ) (c : (ℕ × ℕ) × ℤ)
    (h : gribCellNan ds tn un vn sn fdirName p.1 c.1.1 c.1.2 = true) :
    mkGribCell ds tn un vn sn fdirName p c = none := by
  simp [mkGribCell, h]

theorem mkGribCell_some (ds : GribDataset τ) (tn un vn sn : String)
    (fdirName : Option String) (p : ℕ × τ) (c : (ℕ × ℕ) × ℤ)
    (h : gribCellNan ds tn un vn sn fdirName p.1 c.1.1 c.1.2 = false) :
    mkGribCell ds tn un vn sn fdirName p c
      = some
          { time := p.2
            coordinate_id := c.2
            aswdifd_s := ((ds.data sn p.1 c.1.1 c.1.2).sub
              (gribFdirVal ds sn fdirName p.1 c.1.1 c.1.2)).div (RVal.num 3600)
            aswdir_s :=
              (gribFdirVal ds sn fdirName p.1 c.1.1 c.1.2).div (RVal.num 3600)
            t2m := ds.data tn p.1 c.1.1 c.1.2
            u131m := ds.data un p.1 c.1.1 c.1.2
            v131m := ds.data vn p.1 c.1.1 c.1.2 } := by
  simp [mkGribCell, h]

theorem mkGribCell_eq_some_iff (ds : GribDataset τ) (tn un vn sn : String)
    (fdirName : Option String) (p : ℕ × τ) (c : (ℕ × ℕ) × ℤ)
    (w : WeatherValue τ) :
    mkGribCell ds tn un vn sn fdirName p c = some w ↔
      gribCellNan ds tn un vn sn fdirName p.1 c.1.1 c.1.2 = false ∧
        w = { time := p.2
              coordinate_id := c.2
              aswdifd_s := ((ds.data sn p.1 c.1.1 c.1.2).sub
                (gribFdirVal ds sn fdirName p.1 c.1.1 c.1.2)).div (RVal.num 3600)
              aswdir_s :=
                (gribFdirVal ds sn fdirName p.1 c.1.1 c.1.2).div (RVal.num 3600)
              t2m := ds.data tn p.1 c.1.1 c.1.2
              u131m := ds.data un p.1 c.1.1 c.1.2
              v131m := ds.data vn p.1 c.1.1 c.1.2 } := by
  cases h : gribCellNan ds tn un vn sn fdirName p.1 c.1.1 c.1.2 with
  | false =>
      rw [mkGribCell_some ds tn un vn sn fdirName p c h]
      simp [eq_comm]
  | true =>
      rw [mkGribCell_none ds tn un vn sn fdirName p c h]
      simp

/-! ### `enumerate` membership -/

theorem mem_enumerateFrom (xs : List α) (n k : ℕ) (v : α) :
    (k, v) ∈ enumerateFrom n xs ↔
      ∃ j, ∃ hj : j < xs.length, k = n + j ∧ xs.get ⟨j, hj⟩ = v := by
  induction xs generalizing n with
  | nil => simp [enumerateFrom]
  | cons x xs ih =>
      simp only [enumerateFrom, List.mem_cons, ih (n + 1)]
      constructor
      · rintro (heq | ⟨j, hj, hk, hget⟩)
        · obtain ⟨h1, h2⟩ := Prod.mk.injEq .. ▸ heq
          exact ⟨0, Nat.succ_pos _, by omega, by simpa using h2.symm⟩
        · exact ⟨j + 1, Nat.succ_lt_succ hj, by omega, by simpa using hget⟩
      · rintro ⟨j, hj, hk, hget⟩
        cases j with
        | zero =>
            left
            simp only [List.get] at hget
            simp [hk, hget]
        | succ j =>
            right
            refine ⟨j, Nat.lt_of_succ_lt_succ hj, by omega, by simpa using hget⟩

theorem mem_enumerate (xs : List α) (k : ℕ) (v : α) :
    (k, v) ∈ enumerate xs ↔ ∃ hk : k < xs.length, xs.get ⟨k, hk⟩ = v := by
  rw [enumerate, mem_enumerateFrom]
  constructor
  · rintro ⟨j, hj, hk, hget⟩
    obtain rfl : k = j := by omega
    exact ⟨hj, hget⟩
  · rintro ⟨hk, hget⟩
    exact ⟨k, hk, by omega, hget⟩

/-! ### Claim theorems -/

/-- C2 (counterexample): calling `insert_coordinate` twice with the same
`(lat, lon) = (1, 2)` starting from an empty table does NOT return the
same id twice and does NOT create exactly one row: the first call inserts
`Point(lat, lon) = (1, 2)` (the source passes `x=lat, y=lon` to
`from_xy`) and returns id 1, while the second call searches for
`Point(lon, lat) = (2, 1)`, misses the row just inserted, inserts a
second row and returns id 2. -/
theorem insert_coordinate_duplicate_row :
    (insert_coordinate [] 1 2).2 = 1 ∧
    (insert_coordinate (insert_coordinate [] 1 2).1 1 2).2 = 2 ∧
    (insert_coordinate (insert_coordinate [] 1 2).1 1 2).1.length = 2 := by
  decide

/-- C7 (counterexample): the claim "exit code 0 on success" fails for the
`process-netcdf` subcommand: a run whose processing completes
successfully still exits 1, because the `return 1` statement sits after
the try/except instead of inside the except block; the exception path
also exits 1 (as claimed), and the `inspect-grib` success path exits 0. -/
theorem main_exit_code_process_netcdf :
    main_exit_code Command.processNetcdf true (Except.ok ()) = 1 ∧
    main_exit_code Command.processNetcdf true (Except.error "boom") = 1 ∧
    main_exit_code Command.inspectGrib true (Except.ok ()) = 0 :=
  ⟨rfl, rfl, rfl⟩

/-- C9: `Coordinate` equality compares only the `id` fields, and hashing
depends only on the `id` field; in particular two coordinates with the
same id but different points compare equal. -/
theorem coordinate_eq_hash_id_only :
    (∀ a b : Coordinate, Coordinate.eq a b = true ↔ a.id = b.id) ∧
    (∀ (h : ℤ → ℤ) (a b : Coordinate), a.id = b.id →
      Coordinate.hashWith h a = Coordinate.hashWith h b) ∧
    Coordinate.eq (Coordinate.mk 5 (Pt.mk 1 2)) (Coordinate.mk 5 (Pt.mk 3 4))
      = true := by
  refine ⟨?_, ?_, ?_⟩
  · intro a b
    simp [Coordinate.eq]
  · intro h a b hab
    simp [Coordinate.hashWith, hab]
  · decide

/-- C9 witness: two concrete coordinates with equal ids but different
points hash identically and compare equal. -/
theorem coordinate_eq_hash_id_only_witness :
    (Coordinate.mk 5 (Pt.mk 1 2)).id = (Coordinate.mk 5 (Pt.mk 3 4)).id ∧
    Coordinate.hashWith (fun z => z + 7) (Coordinate.mk 5 (Pt.mk 1 2))
      = Coordinate.hashWith (fun z => z + 7) (Coordinate.mk 5 (Pt.mk 3 4)) :=
  ⟨rfl, coordinate_eq_hash_id_only.2.1 (fun z => z + 7)
    (Coordinate.mk 5 (Pt.mk 1 2)) (Coordinate.mk 5 (Pt.mk 3 4)) rfl⟩

/-- C10: for a recognized extension (lowercased member of the NetCDF or
GRIB extension sets) `detect_file_format` classifies by the extension
alone: the outcome of any content probing (`netcdfOpens`, `gribOpens` —
the only channel through which the file itself could influence the
result) is irrelevant, and matching is case-insensitive (e.g. `".NC"`). -/
theorem detect_file_format_extension_only :
    (∀ (s : String) (b1 b2 : Bool), lowerStr s ∈ [".nc", ".nc4", ".netcdf"] →
      detect_file_format s b1 b2 = "netcdf") ∧
    (∀ (s : String) (b1 b2 : Bool),
      lowerStr s ∈ [".grib", ".grb", ".grib2", ".grb2"] →
      detect_file_format s b1 b2 = "grib") ∧
    (∀ (s : String) (b1 b2 b1' b2' : Bool),
      (lowerStr s ∈ [".nc", ".nc4", ".netcdf"] ∨
        lowerStr s ∈ [".grib", ".grb", ".grib2", ".grb2"]) →
      detect_file_format s b1 b2 = detect_file_format s b1' b2') ∧
    detect_file_format ".NC" false false = "netcdf" := by
  have h1 : ∀ (s : String) (b1 b2 : Bool),
      lowerStr s ∈ [".nc", ".nc4", ".netcdf"] →
      detect_file_format s b1 b2 = "netcdf" := by
    intro s b1 b2 h
    simp only [List.mem_cons, List.not_mem_nil, or_false] at h
    rcases h with h | h | h <;> simp [detect_file_format, h]
  have h2 : ∀ (s : String) (b1 b2 : Bool),
      lowerStr s ∈ [".grib", ".grb", ".grib2", ".grb2"] →
      detect_file_format s b1 b2 = "grib" := by
    intro s b1 b2 h
    simp only [List.mem_cons, List.not_mem_nil, or_false] at h
    rcases h with h | h | h | h <;> simp [detect_file_format, h]
  refine ⟨h1, h2, ?_, ?_⟩
  · intro s b1 b2 b1' b2' h
    rcases h with h | h
    · rw [h1 s b1 b2 h, h1 s b1' b2' h]
    · rw [h2 s b1 b2 h, h2 s b1' b2' h]
  · exact h1 ".NC" false false (by decide)

/-- C10 witness: an uppercase NetCDF extension is classified as netcdf
independently of both probe outcomes. -/
theorem detect_file_format_extension_only_witness :
    lowerStr ".NC" ∈ [".nc", ".nc4", ".netcdf"] ∧
    detect_file_format ".NC" true false = "netcdf" ∧
    detect_file_format ".NC" false true
      = detect_file_format ".NC" true true :=
  ⟨by decide, detect_file_format_extension_only.1 ".NC" true false (by decide),
    detect_file_format_extension_only.2.2.1 ".NC" false true true true
      (Or.inl (by decide))⟩

/-- C3: for a fixed source dataset and coordinate mapping, any two
positive batch sizes produce the identical final sequence of
`WeatherValue` records: on the NetCDF path the concatenation of the
flushed batches is literally equal, and on the GRIB path the results
agree up to the grouping into batches (including the error case).
Batching only changes write granularity. -/
theorem batch_size_invariance (τ : Type) :
    (∀ (times : List τ) (t2m u100 v100 fdir ssrd : ℕ → ℕ → ℕ → RVal)
        (coordinates : List ((ℕ × ℕ) × ℤ)) (b1 b2 : ℕ), 0 < b1 → 0 < b2 →
        (convert_netCFD times t2m u100 v100 fdir ssrd coordinates b1).flatten
          = (convert_netCFD times t2m u100 v100 fdir ssrd coordinates b2).flatten) ∧
    (∀ (ds : GribDataset τ) (coordinates : List ((ℕ × ℕ) × ℤ)) (b1 b2 : ℕ),
        0 < b1 → 0 < b2 →
        (convert_grib ds coordinates b1).map List.flatten
          = (convert_grib ds coordinates b2).map List.flatten) := by
  constructor
  · intro times t2m u100 v100 fdir ssrd coordinates b1 b2 _ _
    rw [convert_netCFD_flatten, convert_netCFD_flatten]
  · intro ds coordinates b1 b2 _ _
    cases h : (required_vars.filter fun v =>
        ((resolveVars ds.vars).lookup v).isNone).isEmpty with
    | false =>
        rw [convert_grib_error ds coordinates b1 h,
          convert_grib_error ds coordinates b2 h]
    | true =>
        rw [convert_grib_map_flatten ds coordinates b1 h,
          convert_grib_map_flatten ds coordinates b2 h]

/-- C3 witness: a one-timestep, one-cell dataset converted with batch
sizes 1 and 2 yields the same records on both paths. -/
theorem batch_size_invariance_witness :
    0 < 1 ∧ 0 < 2 ∧
    (convert_netCFD [(0 : ℕ)] (fun _ _ _ => RVal.num 280)
        (fun _ _ _ => RVal.num 1) (fun _ _ _ => RVal.num 2)
        (fun _ _ _ => RVal.num 3600) (fun _ _ _ => RVal.num 7200)
        [((0, 0), 5)] 1).flatten
      = (convert_netCFD [(0 : ℕ)] (fun _ _ _ => RVal.num 280)
          (fun _ _ _ => RVal.num 1) (fun _ _ _ => RVal.num 2)
          (fun _ _ _ => RVal.num 3600) (fun _ _ _ => RVal.num 7200)
          [((0, 0), 5)] 2).flatten ∧
    (convert_grib
        { vars := ["t2m", "u100", "v100", "ssrd", "fdir"],
          times := [(0 : ℕ)],
          data := fun _ _ _ _ => RVal.num 1 } [((0, 0), 5)] 1).map List.flatten
      = (convert_grib
          { vars := ["t2m", "u100", "v100", "ssrd", "fdir"],
            times := [(0 : ℕ)],
            data := fun _ _ _ _ => RVal.num 1 } [((0, 0), 5)] 2).map List.flatten :=
  ⟨by decide, by decide,
    (batch_size_invariance ℕ).1 [0] (fun _ _ _ => RVal.num 280)
      (fun _ _ _ => RVal.num 1) (fun _ _ _ => RVal.num 2)
      (fun _ _ _ => RVal.num 3600) (fun _ _ _ => RVal.num 7200)
      [((0, 0), 5)] 1 2 (by decide) (by decide),
    (batch_size_invariance ℕ).2
      { vars := ["t2m", "u100", "v100", "ssrd", "fdir"],
        times := [(0 : ℕ)],
        data := fun _ _ _ _ => RVal.num 1 } [((0, 0), 5)] 1 2
      (by decide) (by decide)⟩

/-- Extracting the written records from a successful `convert_grib` run. -/
theorem convert_grib_flatten_of_ok (ds : GribDataset τ)
    (coordinates : List ((ℕ × ℕ) × ℤ)) (b : ℕ)
    (bs : List (List (WeatherValue τ)))
    (hok : convert_grib ds coordinates b = .ok bs) :
    bs.flatten = gribRecords ds coordinates := by
  cases h : (required_vars.filter fun v =>
      ((resolveVars ds.vars).lookup v).isNone).isEmpty with
  | false =>
      rw [convert_grib_error ds coordinates b h] at hok
      exact absurd hok (by simp)
  | true =>
      have hmap := convert_grib_map_flatten ds coordinates b h
      rw [hok] at hmap
      simpa [Except.map] using hmap

theorem RVal_div_num (a b : ℚ) (hb : b ≠ 0) :
    (RVal.num a).div (RVal.num b) = RVal.num (a / b) := by
  simp [RVal.div, hb]

/-- Membership in `gribRecords` unpacked to a time entry, a coordinate
entry and a successful cell extraction. -/
theorem mem_gribRecords (ds : GribDataset τ)
    (coordinates : List ((ℕ × ℕ) × ℤ)) (w : WeatherValue τ) :
    w ∈ gribRecords ds coordinates ↔
      ∃ p ∈ enumerate ds.times, ∃ c ∈ coordinates,
        mkGribCell ds (((resolveVars ds.vars).lookup "t2m").getD "")
          (((resolveVars ds.vars).lookup "u100m").getD "")
          (((resolveVars ds.vars).lookup "v100m").getD "")
          (((resolveVars ds.vars).lookup "ssrd").getD "")
          ((resolveVars ds.vars).lookup "fdir") p c = some w := by
  simp [gribRecords, List.mem_flatMap, List.mem_filterMap]

/-- C5: every record either converter produces stores
`aswdifd_s = (total − direct) / 3600` and `aswdir_s = direct / 3600`,
where `total` is the extracted total irradiance and `direct` the
extracted direct irradiance (or its 50 % approximation on the GRIB
path); concretely, total = 7200 and direct = 3600 yield stored diffuse
1.0 and stored direct 1.0. -/
theorem irradiance_unit_conversion (τ : Type) :
    (∀ (times : List τ) (t2m u100 v100 fdir ssrd : ℕ → ℕ → ℕ → RVal)
        (coordinates : List ((ℕ × ℕ) × ℤ)) (b : ℕ),
      ∀ w ∈ (convert_netCFD times t2m u100 v100 fdir ssrd
          coordinates b).flatten,
        ∃ ti la lo,
          w.aswdifd_s = ((ssrd ti la lo).sub (fdir ti la lo)).div (RVal.num 3600) ∧
          w.aswdir_s = (fdir ti la lo).div (RVal.num 3600)) ∧
    (∀ (ds : GribDataset τ) (coordinates : List ((ℕ × ℕ) × ℤ)) (b : ℕ)
        (bs : List (List (WeatherValue τ))),
      convert_grib ds coordinates b = .ok bs →
      ∀ w ∈ bs.flatten,
        ∃ ti la lo,
          w.aswdifd_s
            = ((ds.data (((resolveVars ds.vars).lookup "ssrd").getD "") ti la lo).sub
                (gribFdirVal ds (((resolveVars ds.vars).lookup "ssrd").getD "")
                  ((resolveVars ds.vars).lookup "fdir") ti la lo)).div
                (RVal.num 3600) ∧
          w.aswdir_s
            = (gribFdirVal ds (((resolveVars ds.vars).lookup "ssrd").getD "")
                ((resolveVars ds.vars).lookup "fdir") ti la lo).div
                (RVal.num 3600)) ∧
    ((convert_netCFD [(0 : ℕ)] (fun _ _ _ => RVal.num 280)
        (fun _ _ _ => RVal.num 1) (fun _ _ _ => RVal.num 2)
        (fun _ _ _ => RVal.num 3600) (fun _ _ _ => RVal.num 7200)
        [((0, 0), 1)] 1000).flatten.map fun w => (w.aswdifd_s, w.aswdir_s))
      = [(RVal.num 1, RVal.num 1)] := by
  refine ⟨?_, ?_, ?_⟩
  · intro times t2m u100 v100 fdir ssrd coordinates b w hw
    rw [convert_netCFD_flatten] at hw
    simp only [List.mem_flatMap, List.mem_map] at hw
    obtain ⟨p, hp, c, hc, rfl⟩ := hw
    exact ⟨p.1, c.1.1, c.1.2, rfl, rfl⟩
  · intro ds coordinates b bs hok w hw
    rw [convert_grib_flatten_of_ok ds coordinates b bs hok,
      mem_gribRecords] at hw
    obtain ⟨p, hp, c, hc, hcell⟩ := hw
    rw [mkGribCell_eq_some_iff] at hcell
    obtain ⟨hnan, rfl⟩ := hcell
    exact ⟨p.1, c.1.1, c.1.2, rfl, rfl⟩
  · rw [convert_netCFD_flatten]
    norm_num [enumerate, enumerateFrom, mkNetcdfRecord, RVal.sub, RVal.div]

/-- C5 witness: the record of a one-cell NetCDF run with total
irradiance 7200 and direct irradiance 3600 is produced and satisfies the
conversion equations (instantiating the general statement). -/
theorem irradiance_unit_conversion_witness :
    mkNetcdfRecord (fun _ _ _ => RVal.num 280) (fun _ _ _ => RVal.num 1)
        (fun _ _ _ => RVal.num 2) (fun _ _ _ => RVal.num 3600)
        (fun _ _ _ => RVal.num 7200) ((0 : ℕ), (0 : ℕ)) ((0, 0), 1)
      ∈ (convert_netCFD [(0 : ℕ)] (fun _ _ _ => RVal.num 280)
          (fun _ _ _ => RVal.num 1) (fun _ _ _ => RVal.num 2)
          (fun _ _ _ => RVal.num 3600) (fun _ _ _ => RVal.num 7200)
          [((0, 0), 1)] 1000).flatten ∧
    ∃ _ti _la _lo : ℕ,
      (mkNetcdfRecord (fun _ _ _ => RVal.num 280) (fun _ _ _ => RVal.num 1)
          (fun _ _ _ => RVal.num 2) (fun _ _ _ => RVal.num 3600)
          (fun _ _ _ => RVal.num 7200) ((0 : ℕ), (0 : ℕ)) ((0, 0), 1)).aswdifd_s
        = ((RVal.num 7200).sub (RVal.num 3600)).div (RVal.num 3600) ∧
      (mkNetcdfRecord (fun _ _ _ => RVal.num 280) (fun _ _ _ => RVal.num 1)
          (fun _ _ _ => RVal.num 2) (fun _ _ _ => RVal.num 3600)
          (fun _ _ _ => RVal.num 7200) ((0 : ℕ), (0 : ℕ)) ((0, 0), 1)).aswdir_s
        = (RVal.num 3600).div (RVal.num 3600) := by
  have hmem :
      mkNetcdfRecord (fun _ _ _ => RVal.num 280) (fun _ _ _ => RVal.num 1)
          (fun _ _ _ => RVal.num 2) (fun _ _ _ => RVal.num 3600)
          (fun _ _ _ => RVal.num 7200) ((0 : ℕ), (0 : ℕ)) ((0, 0), 1)
        ∈ (convert_netCFD [(0 : ℕ)] (fun _ _ _ => RVal.num 280)
            (fun _ _ _ => RVal.num 1) (fun _ _ _ => RVal.num 2)
            (fun _ _ _ => RVal.num 3600) (fun _ _ _ => RVal.num 7200)
            [((0, 0), 1)] 1000).flatten := by
    rw [convert_netCFD_flatten]
    simp [enumerate, enumerateFrom]
  refine ⟨hmem, ?_⟩
  obtain ⟨ti, la, lo, h1, h2⟩ :=
    (irradiance_unit_conversion ℕ).1 [0] (fun _ _ _ => RVal.num 280)
      (fun _ _ _ => RVal.num 1) (fun _ _ _ => RVal.num 2)
      (fun _ _ _ => RVal.num 3600) (fun _ _ _ => RVal.num 7200)
      [((0, 0), 1)] 1000 _ hmem
  exact ⟨ti, la, lo, h1, h2⟩

/-- C8: on a GRIB run where no direct-irradiance variable resolves (so
the 50 % approximation is in force) but the required variables do, the
conversion succeeds and every record it writes has equal stored diffuse
and direct irradiance, both equal to the extracted total irradiance
divided by 7200. -/
theorem grib_fdir_approx_equal (τ : Type) (ds : GribDataset τ)
    (coordinates : List ((ℕ × ℕ) × ℤ)) (b : ℕ)
    (hreq : (required_vars.filter fun v =>
        ((resolveVars ds.vars).lookup v).isNone).isEmpty = true)
    (hfdir : (resolveVars ds.vars).lookup "fdir" = none) :
    ∃ bs, convert_grib ds coordinates b = .ok bs ∧
      ∀ w ∈ bs.flatten,
        w.aswdifd_s = w.aswdir_s ∧
        ∃ ti la lo, w.aswdir_s
          = (ds.data (((resolveVars ds.vars).lookup "ssrd").getD "") ti la lo).div
              (RVal.num 7200) := by
  cases hc : convert_grib ds coordinates b with
  | error e =>
      have hmap := convert_grib_map_flatten ds coordinates b hreq
      rw [hc] at hmap
      exact absurd hmap (by simp [Except.map])
  | ok bs =>
      refine ⟨bs, rfl, ?_⟩
      intro w hw
      rw [convert_grib_flatten_of_ok ds coordinates b bs hc,
        mem_gribRecords] at hw
      obtain ⟨p, hp, c, hc', hcell⟩ := hw
      rw [hfdir, mkGribCell_eq_some_iff] at hcell
      obtain ⟨hnan, rfl⟩ := hcell
      simp only [gribCellNan, Bool.or_eq_false_iff] at hnan
      obtain ⟨⟨_, hsnan⟩, _⟩ := hnan
      cases hS : ds.data (((resolveVars ds.vars).lookup "ssrd").getD "")
          p.1 c.1.1 c.1.2 with
      | nan => rw [hS] at hsnan; simp [RVal.isnan] at hsnan
      | num q =>
          dsimp only
          simp only [gribFdirVal, hS, RVal.mul, RVal.sub]
          constructor
          · have harith : q - q * (1 / 2) = q * (1 / 2) := by ring
            rw [harith]
          · refine ⟨p.1, c.1.1, c.1.2, ?_⟩
            rw [hS, RVal_div_num _ _ (by norm_num),
              RVal_div_num _ _ (by norm_num)]
            congr 1
            ring

/-- C8 witness: a concrete GRIB dataset exposing only the four required
variables (no direct-irradiance alias) converts successfully and every
written record has equal diffuse and direct irradiance. -/
theorem grib_fdir_approx_equal_witness :
    ((required_vars.filter fun v =>
        ((resolveVars ["t2m", "u100", "v100", "ssrd"]).lookup v).isNone).isEmpty
      = true) ∧
    ((resolveVars ["t2m", "u100", "v100", "ssrd"]).lookup "fdir" = none) ∧
    ∃ bs,
      convert_grib
          (GribDataset.mk ["t2m", "u100", "v100", "ssrd"] [(0 : ℕ)]
            (fun _ _ _ _ => RVal.num 7200)) [((0, 0), 1)] 5 = .ok bs ∧
      ∀ w ∈ bs.flatten,
        w.aswdifd_s = w.aswdir_s ∧
        ∃ ti la lo, w.aswdir_s
          = ((GribDataset.mk ["t2m", "u100", "v100", "ssrd"] [(0 : ℕ)]
                (fun _ _ _ _ => RVal.num 7200)).data
              (((resolveVars
                  (GribDataset.mk ["t2m", "u100", "v100", "ssrd"] [(0 : ℕ)]
                    (fun _ _ _ _ => RVal.num 7200)).vars).lookup "ssrd").getD "")
              ti la lo).div (RVal.num 7200) :=
  ⟨by decide, by decide,
    grib_fdir_approx_equal ℕ
      (GribDataset.mk ["t2m", "u100", "v100", "ssrd"] [(0 : ℕ)]
        (fun _ _ _ _ => RVal.num 7200)) [((0, 0), 1)] 5
      (by decide) (by decide)⟩

/-- C6: GRIB variable resolution selects, for each canonical variable,
the first candidate name (in priority order) present in the dataset;
when a required canonical variable matches no candidate the conversion
fails with an error naming the missing variables and carrying the
variables actually present, with no record written; when only the
direct-irradiance variable is missing, conversion proceeds and every
record uses 50 % of the total irradiance as the direct value. -/
theorem grib_variable_resolution (τ : Type) :
    (∀ (dsVars : List String) (cn sel : String) (ps : List String),
        (cn, ps) ∈ variable_mapping →
        ((resolveVars dsVars).lookup cn = some sel →
          ∃ k, ∃ hk : k < ps.length,
            ps.get ⟨k, hk⟩ = sel ∧ dsVars.contains sel = true ∧
              ∀ m, ∀ hm : m < k,
                dsVars.contains (ps.get ⟨m, hm.trans hk⟩) = false) ∧
        ((resolveVars dsVars).lookup cn = none ↔
          ∀ q ∈ ps, dsVars.contains q = false)) ∧
    (∀ (ds : GribDataset τ) (coordinates : List ((ℕ × ℕ) × ℤ)) (b : ℕ)
        (v : String), v ∈ required_vars →
        (resolveVars ds.vars).lookup v = none →
        convert_grib ds coordinates b
            = .error { missing := required_vars.filter fun u =>
                          ((resolveVars ds.vars).lookup u).isNone
                       available := ds.vars } ∧
          v ∈ required_vars.filter fun u =>
                ((resolveVars ds.vars).lookup u).isNone) ∧
    (∀ (ds : GribDataset τ) (coordinates : List ((ℕ × ℕ) × ℤ)) (b : ℕ),
        (required_vars.filter fun u =>
            ((resolveVars ds.vars).lookup u).isNone).isEmpty = true →
        (resolveVars ds.vars).lookup "fdir" = none →
        ∃ bs, convert_grib ds coordinates b = .ok bs ∧
          ∀ w ∈ bs.flatten, ∃ ti la lo,
            w.aswdir_s
              = ((ds.data (((resolveVars ds.vars).lookup "ssrd").getD "")
                    ti la lo).mul (RVal.num (1 / 2))).div (RVal.num 3600)) := by
  refine ⟨?_, ?_, ?_⟩
  · intro dsVars cn sel ps hmem
    constructor
    · intro hsel
      rw [lookup_resolveVars dsVars cn ps hmem] at hsel
      exact find?_first_position _ ps sel hsel
    · rw [lookup_resolveVars dsVars cn ps hmem, List.find?_eq_none]
      constructor
      · intro h q hq
        simpa using h q hq
      · intro h q hq
        rw [h q hq]
        simp
  · intro ds coordinates b v hv hnone
    have hvmem : v ∈ required_vars.filter fun u =>
        ((resolveVars ds.vars).lookup u).isNone :=
      List.mem_filter.mpr ⟨hv, by simp [hnone]⟩
    have hnnil : (required_vars.filter fun u =>
        ((resolveVars ds.vars).lookup u).isNone) ≠ [] :=
      List.ne_nil_of_mem hvmem
    have hne : (required_vars.filter fun u =>
        ((resolveVars ds.vars).lookup u).isNone).isEmpty = false := by
      cases hemp : (required_vars.filter fun u =>
          ((resolveVars ds.vars).lookup u).isNone).isEmpty with
      | true => exact absurd (List.isEmpty_iff.mp hemp) hnnil
      | false => rfl
    exact ⟨convert_grib_error ds coordinates b hne, hvmem⟩
  · intro ds coordinates b hreq hfdir
    cases hc : convert_grib ds coordinates b with
    | error e =>
        have hmap := convert_grib_map_flatten ds coordinates b hreq
        rw [hc] at hmap
        exact absurd hmap (by simp [Except.map])
    | ok bs =>
        refine ⟨bs, rfl, ?_⟩
        intro w hw
        rw [convert_grib_flatten_of_ok ds coordinates b bs hc,
          mem_gribRecords] at hw
        obtain ⟨p, hp, c, hc', hcell⟩ := hw
        rw [hfdir, mkGribCell_eq_some_iff] at hcell
        obtain ⟨hnan, rfl⟩ := hcell
        exact ⟨p.1, c.1.1, c.1.2, rfl⟩

/-- C6 witness: concrete instantiations — with only `"2t"` present, the
temperature variable resolves to `"2t"` (a non-first candidate chosen
because earlier candidates are absent); a dataset lacking any
temperature alias makes `convert_grib` fail with `"t2m"` among the
missing variables and the present variables reported. -/
theorem grib_variable_resolution_witness :
    ((resolveVars ["2t"]).lookup "t2m" = some "2t") ∧
    (∃ k, ∃ hk : k <
        (["t2m", "2t", "T_2M", "TMP_2maboveground"] : List String).length,
      (["t2m", "2t", "T_2M", "TMP_2maboveground"] : List String).get ⟨k, hk⟩
          = "2t" ∧
        (["2t"] : List String).contains "2t" = true ∧
        ∀ m, ∀ hm : m < k,
          (["2t"] : List String).contains
            ((["t2m", "2t", "T_2M", "TMP_2maboveground"] : List String).get
              ⟨m, hm.trans hk⟩) = false) ∧
    (convert_grib
        (GribDataset.mk ["u100", "v100", "ssrd"] [(0 : ℕ)]
          (fun _ _ _ _ => RVal.num 1)) [] 3
        = .error { missing := required_vars.filter fun u =>
                      ((resolveVars ["u100", "v100", "ssrd"]).lookup u).isNone
                   available := ["u100", "v100", "ssrd"] } ∧
      "t2m" ∈ required_vars.filter fun u =>
        ((resolveVars ["u100", "v100", "ssrd"]).lookup u).isNone) :=
  ⟨by decide,
    ((grib_variable_resolution ℕ).1 ["2t"] "t2m" "2t"
      ["t2m", "2t", "T_2M", "TMP_2maboveground"] (by decide)).1 (by decide),
    (grib_variable_resolution ℕ).2.1
      (GribDataset.mk ["u100", "v100", "ssrd"] [(0 : ℕ)]
        (fun _ _ _ _ => RVal.num 1)) [] 3 "t2m" (by decide) (by decide)⟩

/-- C4: on a successful GRIB run (all required variables resolved), a
(cell, time) position at which any of the five extracted measurements is
NaN produces no record: conversion still succeeds (processing
continues), no written record carries that timestamp-and-coordinate-id
pair (assuming distinct timestamps and distinct coordinate ids), and
every other cell whose extraction succeeds at that timestamp has its
record in the output. -/
theorem grib_nan_skip (τ : Type) (ds : GribDataset τ)
    (coordinates : List ((ℕ × ℕ) × ℤ)) (b ti la lo : ℕ) (tv : τ) (cid : ℤ)
    (hreq : (required_vars.filter fun v =>
        ((resolveVars ds.vars).lookup v).isNone).isEmpty = true)
    (htimes : ds.times.Nodup)
    (hids : (coordinates.map Prod.snd).Nodup)
    (htv : (ti, tv) ∈ enumerate ds.times)
    (hcell : ((la, lo), cid) ∈ coordinates)
    (hnan : gribCellNan ds (((resolveVars ds.vars).lookup "t2m").getD "")
        (((resolveVars ds.vars).lookup "u100m").getD "")
        (((resolveVars ds.vars).lookup "v100m").getD "")
        (((resolveVars ds.vars).lookup "ssrd").getD "")
        ((resolveVars ds.vars).lookup "fdir") ti la lo = true) :
    ∃ bs, convert_grib ds coordinates b = .ok bs ∧
      (∀ w ∈ bs.flatten, ¬(w.time = tv ∧ w.coordinate_id = cid)) ∧
      (∀ c ∈ coordinates, ∀ w,
        mkGribCell ds (((resolveVars ds.vars).lookup "t2m").getD "")
          (((resolveVars ds.vars).lookup "u100m").getD "")
          (((resolveVars ds.vars).lookup "v100m").getD "")
          (((resolveVars ds.vars).lookup "ssrd").getD "")
          ((resolveVars ds.vars).lookup "fdir") (ti, tv) c = some w →
        w ∈ bs.flatten) := by
  cases hc : convert_grib ds coordinates b with
  | error e =>
      have hmap := convert_grib_map_flatten ds coordinates b hreq
      rw [hc] at hmap
      exact absurd hmap (by simp [Except.map])
  | ok bs =>
      have hfl := convert_grib_flatten_of_ok ds coordinates b bs hc
      refine ⟨bs, rfl, ?_, ?_⟩
      · intro w hw
        rintro ⟨hwt, hwc⟩
        rw [hfl, mem_gribRecords] at hw
        obtain ⟨p, hp, c, hcmem, hcell'⟩ := hw
        obtain ⟨pi, pv⟩ := p
        rw [mkGribCell_eq_some_iff] at hcell'
        obtain ⟨hnanf, rfl⟩ := hcell'
        dsimp only at hwt hwc hnanf
        rw [mem_enumerate] at hp htv
        obtain ⟨hpi, hgetpi⟩ := hp
        obtain ⟨hti, hgetti⟩ := htv
        subst hwt
        have hfin : (⟨pi, hpi⟩ : Fin ds.times.length) = ⟨ti, hti⟩ :=
          (List.Nodup.get_inj_iff htimes).mp (hgetpi.trans hgetti.symm)
        have hpi_ti : pi = ti := by
          simpa using hfin
        have hceq : c = ((la, lo), cid) :=
          List.inj_on_of_nodup_map hids hcmem hcell hwc
        rw [hpi_ti, hceq] at hnanf
        dsimp only at hnanf
        rw [hnan] at hnanf
        cases hnanf
      · intro c hcmem w hcw
        rw [hfl, mem_gribRecords]
        exact ⟨(ti, tv), htv, c, hcmem, hcw⟩

/-- C4 witness: a concrete two-cell GRIB dataset whose measurements are
NaN exactly at cell (0,0) of the single timestep: the conversion
succeeds, writes nothing for (time 7, coordinate 5), and still converts
the other cell. -/
theorem grib_nan_skip_witness :
    ((required_vars.filter fun v =>
        ((resolveVars ["t2m", "u100", "v100", "ssrd", "fdir"]).lookup
          v).isNone).isEmpty = true) ∧
    ([(7 : ℕ)] : List ℕ).Nodup ∧
    (([((0, 0), 5), ((0, 1), 6)] : List ((ℕ × ℕ) × ℤ)).map Prod.snd).Nodup ∧
    ((0, (7 : ℕ)) ∈ enumerate [(7 : ℕ)]) ∧
    (((0, 1), (6 : ℤ)) ∈ ([((0, 0), 5), ((0, 1), 6)] : List ((ℕ × ℕ) × ℤ))) ∧
    (gribCellNan
        (GribDataset.mk ["t2m", "u100", "v100", "ssrd", "fdir"] [(7 : ℕ)]
          (fun _ _ la lo =>
            if la == 0 && lo == 0 then RVal.nan else RVal.num 1))
        (((resolveVars ["t2m", "u100", "v100", "ssrd", "fdir"]).lookup
            "t2m").getD "")
        (((resolveVars ["t2m", "u100", "v100", "ssrd", "fdir"]).lookup
            "u100m").getD "")
        (((resolveVars ["t2m", "u100", "v100", "ssrd", "fdir"]).lookup
            "v100m").getD "")
        (((resolveVars ["t2m", "u100", "v100", "ssrd", "fdir"]).lookup
            "ssrd").getD "")
        ((resolveVars ["t2m", "u100", "v100", "ssrd", "fdir"]).lookup "fdir")
        0 0 0 = true) ∧
    ∃ bs,
      convert_grib
          (GribDataset.mk ["t2m", "u100", "v100", "ssrd", "fdir"] [(7 : ℕ)]
            (fun _ _ la lo =>
              if la == 0 && lo == 0 then RVal.nan else RVal.num 1))
          [((0, 0), 5), ((0, 1), 6)] 1000 = .ok bs ∧
      (∀ w ∈ bs.flatten, ¬(w.time = 7 ∧ w.coordinate_id = 5)) ∧
      (∀ c ∈ ([((0, 0), 5), ((0, 1), 6)] : List ((ℕ × ℕ) × ℤ)), ∀ w,
        mkGribCell
          (GribDataset.mk ["t2m", "u100", "v100", "ssrd", "fdir"] [(7 : ℕ)]
            (fun _ _ la lo =>
              if la == 0 && lo == 0 then RVal.nan else RVal.num 1))
          (((resolveVars ["t2m", "u100", "v100", "ssrd", "fdir"]).lookup
              "t2m").getD "")
          (((resolveVars ["t2m", "u100", "v100", "ssrd", "fdir"]).lookup
              "u100m").getD "")
          (((resolveVars ["t2m", "u100", "v100", "ssrd", "fdir"]).lookup
              "v100m").getD "")
          (((resolveVars ["t2m", "u100", "v100", "ssrd", "fdir"]).lookup
              "ssrd").getD "")
          ((resolveVars ["t2m", "u100", "v100", "ssrd", "fdir"]).lookup "fdir")
          (0, (7 : ℕ)) c = some w →
        w ∈ bs.flatten) :=
  ⟨by decide, by decide, by decide, by decide, by decide, by decide,
    grib_nan_skip ℕ
      (GribDataset.mk ["t2m", "u100", "v100", "ssrd", "fdir"] [(7 : ℕ)]
        (fun _ _ la lo =>
          if la == 0 && lo == 0 then RVal.nan else RVal.num 1))
      [((0, 0), 5), ((0, 1), 6)] 1000 0 0 0 7 5
      (by decide) (by decide) (by decide) (by decide) (by decide) (by decide)⟩
